import Mathlib

/-!
Shallow embedding of the OAuth 2.0 authorization engine and bearer-token
middleware of the fast-mcp-demo repository
(src/utils/oauth_handler.py, src/utils/auth.py, src/lambda_handler.py).

Python dicts keyed by strings are modelled as insertion-ordered association
lists (`Store`); `time.time()` is modelled as an explicit `now : Nat`
parameter; the nondeterministic `secrets.token_urlsafe` outputs are modelled
as explicit string parameters supplied by the caller; the Python 3-tuple
`(success, payload, error)` returned by the token operations is modelled as
`Except String TokenResponse`.
-/

namespace FastMcp

/-- Insertion-ordered association list modelling a Python `dict` keyed by
strings. -/
abbrev Store (α : Type) := List (String × α)

namespace Store

/-- Python `dict.get(k)`: first (and only, since `set` deduplicates) binding
of the key. -/
def get {α : Type} : Store α → String → Option α
  | [], _ => none
  | (k', v) :: rest, k => if k' = k then some v else get rest k

/-- Python `d[k] = v`: replace in place when the key exists, append
otherwise. -/
def set {α : Type} : Store α → String → α → Store α
  | [], k, v => [(k, v)]
  | (k', v') :: rest, k, v =>
    if k' = k then (k, v) :: rest else (k', v') :: set rest k v

theorem get_set_self {α : Type} (s : Store α) (k : String) (v : α) :
    (s.set k v).get k = some v := by
  induction s with
  | nil => simp [get, set]
  | cons hd tl ih =>
    by_cases h : hd.1 = k <;> simp [get, set, h, ih]

theorem get_set_ne {α : Type} (s : Store α) (k k' : String) (v : α)
    (h : k' ≠ k) : (s.set k v).get k' = s.get k' := by
  induction s with
  | nil => simp [get, set]; exact fun he => h he.symm
  | cons hd tl ih =>
    by_cases hk : hd.1 = k <;>
      by_cases hk' : hd.1 = k' <;>
      simp_all [get, set]

end Store

/-- Python truthiness of an optional string: `None` and `""` are falsy. -/
def truthy : Option String → Bool
  | none => false
  | some s => s ≠ ""

/-- Record stored in `self.auth_codes` by
`OAuthHandler.handle_authorization_callback`. -/
structure AuthCodeData where
  client_id : String
  redirect_uri : String
  scope : String
  created_at : Nat
  expires_at : Nat
  used : Bool
deriving DecidableEq, Repr

/-- Record stored in `self.access_tokens` / `self.refresh_tokens`. -/
structure TokenData where
  client_id : String
  scope : String
  user_id : String
  created_at : Nat
  expires_at : Nat
deriving DecidableEq, Repr

/-- Mutable state of an `OAuthHandler` instance: the three in-memory stores
and the two TTLs computed in `__init__`. -/
structure OAuthState where
  auth_codes : Store AuthCodeData
  access_tokens : Store TokenData
  refresh_tokens : Store TokenData
  access_token_ttl : Nat
  refresh_token_ttl : Nat
deriving DecidableEq, Repr

/-- `OAuthHandler.__init__` under the default environment:
`OAUTH_ACCESS_TOKEN_TTL_MINUTES = 60`, `OAUTH_REFRESH_TOKEN_TTL_MINUTES =
10080`, both multiplied by 60. -/
def OAuthState.init : OAuthState :=
  { auth_codes := []
    access_tokens := []
    refresh_tokens := []
    access_token_ttl := 60 * 60
    refresh_token_ttl := 10080 * 60 }

/-- JSON token response built by `exchange_code_for_token` and
`refresh_access_token`. -/
structure TokenResponse where
  access_token : String
  token_type : String
  expires_in : Nat
  refresh_token : String
  scope : String
deriving DecidableEq, Repr

/-- `OAuthHandler.handle_authorization_callback`: unconditionally stores the
code with hardcoded scope `"all-apis"`, a 600-second expiry window and
`used = False`, and returns `(True, None)`. -/
def handle_authorization_callback (st : OAuthState) (now : Nat)
    (code client_id redirect_uri : String) (_state : Option String) :
    (Bool × Option String) × OAuthState :=
  let auth_code_data : AuthCodeData :=
    { client_id := client_id
      redirect_uri := redirect_uri
      scope := "all-apis"
      created_at := now
      expires_at := now + 600
      used := false }
  ((true, none),
   { st with auth_codes := st.auth_codes.set code auth_code_data })

/-- Python condition `redirect_uri and auth_code_data.get('redirect_uri')
!= redirect_uri` of the exchange step: the stored URI is compared only when
the caller supplied a truthy `redirect_uri`. -/
def redirectMismatch (auth_code_data : AuthCodeData)
    (redirect_uri : Option String) : Bool :=
  match redirect_uri with
  | none => false
  | some r => r ≠ "" && auth_code_data.redirect_uri ≠ r

/-- `OAuthHandler.exchange_code_for_token`.  `now` models `time.time()`;
`new_access` and `new_refresh` model the two `self._generate_token()`
results.  The `code_verifier` parameter is accepted, exactly as in the
source, which never reads it. -/
def exchange_code_for_token (st : OAuthState) (now : Nat)
    (new_access new_refresh : String) (code client_id : String)
    (_client_secret : Option String) (redirect_uri : Option String)
    (_code_verifier : Option String) :
    Except String TokenResponse × OAuthState :=
  match st.auth_codes.get code with
  | none => (Except.error "Invalid authorization code", st)
  | some auth_code_data =>
    if auth_code_data.used then
      (Except.error "Authorization code already used", st)
    else if auth_code_data.expires_at < now then
      (Except.error "Authorization code expired", st)
    else if auth_code_data.client_id ≠ client_id then
      (Except.error "Client ID mismatch", st)
    else if redirectMismatch auth_code_data redirect_uri then
      (Except.error "Redirect URI mismatch", st)
    else
      let token_data : TokenData :=
        { client_id := client_id
          scope := auth_code_data.scope
          user_id := "authenticated_user"
          created_at := now
          expires_at := now + st.access_token_ttl }
      (Except.ok
        { access_token := new_access
          token_type := "Bearer"
          expires_in := st.access_token_ttl
          refresh_token := new_refresh
          scope := token_data.scope },
       { st with
          auth_codes :=
            st.auth_codes.set code { auth_code_data with used := true }
          access_tokens := st.access_tokens.set new_access token_data
          refresh_tokens :=
            st.refresh_tokens.set new_refresh
              { token_data with expires_at := now + st.refresh_token_ttl } })

/-- `OAuthHandler.refresh_access_token`.  `new_access` models the
`self._generate_token()` result.  On success the refresh-token store is left
untouched and the same refresh token value is echoed back. -/
def refresh_access_token (st : OAuthState) (now : Nat) (new_access : String)
    (refresh_token client_id : String) (_client_secret : Option String) :
    Except String TokenResponse × OAuthState :=
  match st.refresh_tokens.get refresh_token with
  | none => (Except.error "Invalid refresh token", st)
  | some refresh_token_data =>
    if refresh_token_data.expires_at < now then
      (Except.error "Refresh token expired", st)
    else if refresh_token_data.client_id ≠ client_id then
      (Except.error "Client ID mismatch", st)
    else
      let token_data : TokenData :=
        { client_id := client_id
          scope := refresh_token_data.scope
          user_id := refresh_token_data.user_id
          created_at := now
          expires_at := now + st.access_token_ttl }
      (Except.ok
        { access_token := new_access
          token_type := "Bearer"
          expires_in := st.access_token_ttl
          refresh_token := refresh_token
          scope := token_data.scope },
       { st with access_tokens := st.access_tokens.set new_access token_data })

/-- `OAuthHandler.validate_token`: existence plus strict-`>` expiry check. -/
def validate_token (st : OAuthState) (now : Nat) (access_token : String) :
    Bool × Option TokenData :=
  match st.access_tokens.get access_token with
  | none => (false, none)
  | some token_data =>
    if token_data.expires_at < now then (false, none)
    else (true, some token_data)

/-- Record stored in `PATAuthenticator.valid_pats` (src/utils/auth.py). -/
structure PatData where
  user_id : String
  scopes : List String
  created_at : Nat
  expires_at : Nat
deriving DecidableEq, Repr

/-- `PATAuthenticator.validate_pat`: falsy token, missing entry and
strict-`>` expiry all reject. -/
def validate_pat (pats : Store PatData) (now : Nat) (pat_token : String) :
    Bool × Option PatData :=
  if pat_token = "" then (false, none)
  else
    match pats.get pat_token with
    | none => (false, none)
    | some token_info =>
      if token_info.expires_at < now then (false, none)
      else (true, some token_info)

/-- Identity returned by `AuthMiddleware.authenticate_request`: either an
OAuth token record or a PAT record. -/
inductive UserInfo where
  | oauth (t : TokenData)
  | pat (p : PatData)
deriving DecidableEq, Repr

/-- Python `a or b` on two optional strings: the left operand wins exactly
when it is truthy (`None` and `""` are falsy). -/
def pyOrStr (a b : Option String) : Option String :=
  if truthy a then a else b

/-- Python `s.startswith(pre)`: character-wise prefix test. -/
def pyStartswith (s pre : String) : Bool :=
  pre.data.isPrefixOf s.data

/-- Python `s[n:]`: drop the first `n` characters. -/
def pyDrop (s : String) (n : Nat) : String :=
  String.mk (s.data.drop n)

/-- `AuthMiddleware.authenticate_request` (src/utils/auth.py lines 168-209),
in the deployed configuration where the global `oauth_handler` import
succeeded (so the local `OAuthTokenManager` fallback branch is dead code).
`ost` is the global handler state, `pats` the PAT registry, `now` the
clock. -/
def authenticate_request (ost : OAuthState) (pats : Store PatData)
    (now : Nat) (headers : Store String) :
    Bool × Option UserInfo × Option String :=
  let auth_header :=
    pyOrStr (headers.get "authorization") (headers.get "Authorization")
  if ¬ truthy auth_header then
    (false, none, some "Missing Authorization header")
  else
    let v := auth_header.getD ""
    if ¬ pyStartswith v "Bearer " then
      (false, none,
       some "Invalid Authorization header format. Expected \x27Bearer <token>\x27")
    else
      let token := pyDrop v 7
      match validate_token ost now token with
      | (true, some t) => (true, some (UserInfo.oauth t), none)
      | _ =>
        match validate_pat pats now token with
        | (true, some p) => (true, some (UserInfo.pat p), none)
        | _ => (false, none, some "Invalid or expired token")

/-- One sextet value to its URL-safe base64 alphabet byte
(`A-Z a-z 0-9 - _`). -/
def b64urlChar (n : Nat) : Nat :=
  if n < 26 then 65 + n
  else if n < 52 then 97 + (n - 26)
  else if n < 62 then 48 + (n - 52)
  else if n = 62 then 45
  else 95

/-- `base64.urlsafe_b64encode` on a byte list, producing the ASCII codes of
the encoding including the `=` (code 61) padding. -/
def b64urlEncode : List Nat → List Nat
  | [] => []
  | [a] => [b64urlChar (a / 4), b64urlChar (a % 4 * 16), 61, 61]
  | [a, b] =>
    [b64urlChar (a / 4), b64urlChar (a % 4 * 16 + b / 16),
     b64urlChar (b % 16 * 4), 61]
  | a :: b :: c :: rest =>
    [b64urlChar (a / 4), b64urlChar (a % 4 * 16 + b / 16),
     b64urlChar (b % 16 * 4 + c / 64), b64urlChar (c % 64)]
      ++ b64urlEncode rest

/-- Python `.rstrip('=')` on a byte list: drop trailing bytes 61. -/
def rstrip61 (l : List Nat) : List Nat :=
  (l.reverse.dropWhile (fun c => c == 61)).reverse

/-- `OAuthHandler.generate_pkce_pair`.  Strings are modelled as their lists
of ASCII codes (the verifier is pure base64url alphabet, so
`.decode('utf-8')` / `.encode('utf-8')` round-trip to the same bytes);
`hashlib.sha256(..).digest()` is modelled as an abstract byte function and
`secrets.token_bytes(32)` as the explicit `randomBytes` argument. -/
def generate_pkce_pair (sha256 : List Nat → List Nat)
    (randomBytes : List Nat) : List Nat × List Nat :=
  let code_verifier := rstrip61 (b64urlEncode randomBytes)
  let code_challenge := rstrip61 (b64urlEncode (sha256 code_verifier))
  (code_verifier, code_challenge)

/-- Byte is in the URL-safe alphabet `A-Z a-z 0-9 - _`. -/
def isUrlSafeByte (c : Nat) : Bool :=
  (65 ≤ c && c ≤ 90) || (97 ≤ c && c ≤ 122) || (48 ≤ c && c ≤ 57)
    || c == 45 || c == 95

/-- Slice of the HTTP response dict built by `handle_oauth_authorize`. -/
structure HttpResponse where
  statusCode : Nat
  location : Option String
  body : String
deriving DecidableEq, Repr

/-- `handle_oauth_authorize` (src/lambda_handler.py lines 429-497).
`apiGatewayUrlEnv` models `os.environ.get('API_GATEWAY_URL')`; `auth_code`
models the `oauth_handler._generate_token()` result; `query` and `headers`
model `event['queryStringParameters']` and `event['headers']`.  The source
binds the `scope` and `code_challenge` query parameters but never uses
them; the success branch of `handle_authorization_callback` is the only one
reachable since that call always returns `(True, None)`. -/
def handle_oauth_authorize (apiGatewayUrlEnv : Option String)
    (st : OAuthState) (now : Nat) (auth_code : String)
    (query headers : Store String) : HttpResponse × OAuthState :=
  let client_id := query.get "client_id"
  let redirect_uri := query.get "redirect_uri"
  let state := query.get "state"
  let _scope := (query.get "scope").getD "all-apis"
  let _code_challenge := query.get "code_challenge"
  let _code_challenge_method :=
    (query.get "code_challenge_method").getD "S256"
  if ¬ truthy client_id then
    ({ statusCode := 400
       location := none
       body := "\x7b\"error\": \"invalid_request\", \"error_description\": \"Missing client_id\"\x7d" },
     st)
  else
    let api_gateway_url := apiGatewayUrlEnv.getD ((headers.get "host").getD "")
    let ruri :=
      if truthy redirect_uri then redirect_uri.getD ""
      else
        ((headers.get "x-forwarded-proto").getD "https") ++ "://"
          ++ ((headers.get "host").getD api_gateway_url) ++ "/oauth/callback"
    let st' :=
      (handle_authorization_callback st now auth_code (client_id.getD "")
        ruri state).2
    let redirect_params :=
      "code=" ++ auth_code
        ++ (if truthy state then "&state=" ++ state.getD "" else "")
    let separator := if ruri.data.contains (Char.ofNat 63) then "&" else "?"
    ({ statusCode := 302
       location := some (ruri ++ separator ++ redirect_params)
       body := "" },
     st')

/-- Arguments of one `exchange_code_for_token` call (everything except the
code, which is shared across a replay sequence). -/
structure ExchangeArgs where
  now : Nat
  new_access : String
  new_refresh : String
  client_id : String
  client_secret : Option String
  redirect_uri : Option String
  code_verifier : Option String
deriving DecidableEq, Repr

/-- Run a sequence of `exchange_code_for_token` calls on the same code,
threading the handler state, collecting the per-call results. -/
def runExchanges : OAuthState → String → List ExchangeArgs →
    List (Except String TokenResponse) × OAuthState
  | st, _, [] => ([], st)
  | st, code, a :: rest =>
    let p := exchange_code_for_token st a.now a.new_access a.new_refresh
      code a.client_id a.client_secret a.redirect_uri a.code_verifier
    let q := runExchanges p.2 code rest
    (p.1 :: q.1, q.2)

/-- Whether an exchange result is a success. -/
def exIsOk : Except String TokenResponse → Bool
  | Except.ok _ => true
  | Except.error _ => false

/-- Number of successful results in a sequence. -/
def countOk (rs : List (Except String TokenResponse)) : Nat :=
  rs.countP exIsOk

/-! ### Helper lemmas about single token operations -/

/-- A failing `exchange_code_for_token` call leaves the handler state
untouched: every error return happens before any store mutation. -/
theorem exchange_error_frame (st : OAuthState) (now : Nat)
    (a r code cid : String) (cs ru cv : Option String) (e : String)
    (h : (exchange_code_for_token st now a r code cid cs ru cv).1 =
      Except.error e) :
    (exchange_code_for_token st now a r code cid cs ru cv).2 = st := by
  unfold exchange_code_for_token at h ⊢
  cases hget : st.auth_codes.get code
  · simp [hget]
  · simp only [hget] at h ⊢
    split_ifs at h ⊢ <;> simp_all

/-- A failing `refresh_access_token` call leaves the handler state
untouched. -/
theorem refresh_error_frame (st : OAuthState) (now : Nat) (a rt cid : String)
    (cs : Option String) (e : String)
    (h : (refresh_access_token st now a rt cid cs).1 = Except.error e) :
    (refresh_access_token st now a rt cid cs).2 = st := by
  unfold refresh_access_token at h ⊢
  cases hget : st.refresh_tokens.get rt
  · simp [hget]
  · simp only [hget] at h ⊢
    split_ifs at h ⊢ <;> simp_all

/-- Shape of a successful `refresh_access_token` call. -/
theorem refresh_ok_shape (st : OAuthState) (now : Nat) (a rt cid : String)
    (cs : Option String) (d : TokenData)
    (hget : st.refresh_tokens.get rt = some d)
    (hexp : ¬ d.expires_at < now) (hcid : d.client_id = cid) :
    refresh_access_token st now a rt cid cs =
      (Except.ok
        { access_token := a
          token_type := "Bearer"
          expires_in := st.access_token_ttl
          refresh_token := rt
          scope := d.scope },
       { st with access_tokens := (st.access_tokens.set a
          { client_id := cid
            scope := d.scope
            user_id := d.user_id
            created_at := now
            expires_at := now + st.access_token_ttl }) }) := by
  unfold refresh_access_token
  simp [hget, hexp, hcid]

/-- A successful `refresh_access_token` call can only come from an existing,
non-expired, client-matching refresh-token record. -/
theorem refresh_ok_inv (st : OAuthState) (now : Nat) (a rt cid : String)
    (cs : Option String)
    (h : exIsOk (refresh_access_token st now a rt cid cs).1 = true) :
    ∃ d, st.refresh_tokens.get rt = some d ∧ ¬ d.expires_at < now ∧
      d.client_id = cid := by
  unfold refresh_access_token at h
  cases hget : st.refresh_tokens.get rt
  · simp [hget, exIsOk] at h
  · rename_i d
    refine ⟨d, rfl, ?_⟩
    simp only [hget] at h
    split_ifs at h <;> simp_all [exIsOk]

/-- Example handler state holding one stored refresh token, used by concrete
instantiations. -/
def refreshExampleState : OAuthState :=
  { OAuthState.init with
     refresh_tokens :=
       [("rt", { client_id := "demo"
                 scope := "all-apis"
                 user_id := "authenticated_user"
                 created_at := 0
                 expires_at := 604800 })] }

/-- Shape of a successful `exchange_code_for_token` call: the code is marked
used in place, and fresh access/refresh records are inserted. -/
theorem exchange_ok_shape (st : OAuthState) (now : Nat)
    (a r code cid : String) (cs ru cv : Option String) (d : AuthCodeData)
    (hget : st.auth_codes.get code = some d) (hused : d.used = false)
    (hexp : ¬ d.expires_at < now) (hcid : d.client_id = cid)
    (hru : redirectMismatch d ru = false) :
    exchange_code_for_token st now a r code cid cs ru cv =
      (Except.ok
        { access_token := a
          token_type := "Bearer"
          expires_in := st.access_token_ttl
          refresh_token := r
          scope := d.scope },
       { st with
          auth_codes := st.auth_codes.set code { d with used := true }
          access_tokens := (st.access_tokens.set a
            { client_id := cid
              scope := d.scope
              user_id := "authenticated_user"
              created_at := now
              expires_at := now + st.access_token_ttl })
          refresh_tokens := (st.refresh_tokens.set r
            { client_id := cid
              scope := d.scope
              user_id := "authenticated_user"
              created_at := now
              expires_at := now + st.refresh_token_ttl }) }) := by
  unfold exchange_code_for_token
  simp [hget, hused, hexp, hcid, hru]

/-- A successful `exchange_code_for_token` call can only come from a stored,
unused, unexpired code matching the client and redirect arguments. -/
theorem exchange_ok_inv (st : OAuthState) (now : Nat) (a r code cid : String)
    (cs ru cv : Option String)
    (h : exIsOk (exchange_code_for_token st now a r code cid cs ru cv).1 =
      true) :
    ∃ d, st.auth_codes.get code = some d ∧ d.used = false ∧
      ¬ d.expires_at < now ∧ d.client_id = cid ∧
      redirectMismatch d ru = false := by
  unfold exchange_code_for_token at h
  cases hget : st.auth_codes.get code
  · simp [hget, exIsOk] at h
  · rename_i d
    refine ⟨d, rfl, ?_⟩
    simp only [hget] at h
    split_ifs at h <;> simp_all [exIsOk]

/-- Exchanging a code whose stored record is already marked used always
fails with the reuse error and leaves the state unchanged. -/
theorem exchange_used_eq (st : OAuthState) (now : Nat)
    (a r code cid : String) (cs ru cv : Option String) (d : AuthCodeData)
    (hget : st.auth_codes.get code = some d) (hused : d.used = true) :
    exchange_code_for_token st now a r code cid cs ru cv =
      (Except.error "Authorization code already used", st) := by
  unfold exchange_code_for_token
  simp [hget, hused]

/-- After a successful exchange the stored code record is marked used. -/
theorem exchange_ok_used_after (st : OAuthState) (now : Nat)
    (a r code cid : String) (cs ru cv : Option String)
    (h : exIsOk (exchange_code_for_token st now a r code cid cs ru cv).1 =
      true) :
    ∃ d, (exchange_code_for_token st now a r code cid cs ru cv).2.auth_codes.get
        code = some d ∧ d.used = true := by
  obtain ⟨d, hget, hused, hexp, hcid, hru⟩ :=
    exchange_ok_inv st now a r code cid cs ru cv h
  rw [exchange_ok_shape st now a r code cid cs ru cv d hget hused hexp hcid
    hru]
  exact ⟨_, Store.get_set_self _ _ _, rfl⟩

/-- The flag state of a success: the record flips from unused to used. -/
theorem exchange_ok_flag_flip (st : OAuthState) (now : Nat)
    (a r code cid : String) (cs ru cv : Option String)
    (h : exIsOk (exchange_code_for_token st now a r code cid cs ru cv).1 =
      true) :
    ∃ d, st.auth_codes.get code = some d ∧ d.used = false ∧
      (exchange_code_for_token st now a r code cid cs ru
          cv).2.auth_codes.get code = some { d with used := true } := by
  obtain ⟨d, hget, hused, hexp, hcid, hru⟩ :=
    exchange_ok_inv st now a r code cid cs ru cv h
  rw [exchange_ok_shape st now a r code cid cs ru cv d hget hused hexp hcid
    hru]
  exact ⟨d, hget, hused, Store.get_set_self _ _ _⟩

/-- An exchange call never removes the code entry it is called on. -/
theorem exchange_keeps_code (st : OAuthState) (now : Nat)
    (a r code cid : String) (cs ru cv : Option String)
    (h : (st.auth_codes.get code).isSome = true) :
    ((exchange_code_for_token st now a r code cid cs ru
        cv).2.auth_codes.get code).isSome = true := by
  cases hr : (exchange_code_for_token st now a r code cid cs ru cv).1 with
  | error e =>
    rw [exchange_error_frame st now a r code cid cs ru cv e hr]
    exact h
  | ok v =>
    obtain ⟨d, hd, _⟩ := exchange_ok_used_after st now a r code cid cs ru cv
      (by simp [hr, exIsOk])
    simp [hd]

/-- Once the code record is marked used, a whole sequence of exchange calls
uniformly fails with the reuse error and never changes the state. -/
theorem runExchanges_used (st : OAuthState) (code : String)
    (calls : List ExchangeArgs) (d : AuthCodeData)
    (hget : st.auth_codes.get code = some d) (hused : d.used = true) :
    runExchanges st code calls =
      (calls.map (fun _ => Except.error "Authorization code already used"),
       st) := by
  induction calls with
  | nil => simp [runExchanges]
  | cons a rest ih =>
    simp [runExchanges,
      exchange_used_eq st a.now a.new_access a.new_refresh code a.client_id
        a.client_secret a.redirect_uri a.code_verifier d hget hused, ih]

/-- Failed results contribute nothing to the success count. -/
theorem countOk_map_error (l : List ExchangeArgs) (e : String) :
    countOk (l.map (fun _ => Except.error e)) = 0 := by
  induction l with
  | nil => rfl
  | cons a rest ih => simp_all [countOk, List.countP_cons, exIsOk]

/-- In any replay sequence on one code, at most one exchange succeeds. -/
theorem runExchanges_countOk (st : OAuthState) (code : String)
    (calls : List ExchangeArgs) :
    countOk (runExchanges st code calls).1 ≤ 1 := by
  induction calls generalizing st with
  | nil => simp [runExchanges, countOk]
  | cons a rest ih =>
    by_cases hok : exIsOk (exchange_code_for_token st a.now a.new_access
      a.new_refresh code a.client_id a.client_secret a.redirect_uri
      a.code_verifier).1 = true
    · obtain ⟨d, hd, hu⟩ := exchange_ok_used_after st a.now a.new_access
        a.new_refresh code a.client_id a.client_secret a.redirect_uri
        a.code_verifier hok
      simp [runExchanges, countOk, List.countP_cons,
        runExchanges_used _ code rest d hd hu, countOk_map_error,
        hok]
      exact fun _ => rfl
    · simp only [runExchanges, countOk, List.countP_cons]
      simp only [Bool.not_eq_true] at hok
      simpa [countOk, hok] using ih _

/-- Every exchange after a successful one fails with the reuse error. -/
theorem runExchanges_after_ok (st : OAuthState) (code : String)
    (calls : List ExchangeArgs) :
    ∀ rs1 res rs2, (runExchanges st code calls).1 = rs1 ++ res :: rs2 →
      exIsOk res = true →
      ∀ res2 ∈ rs2,
        res2 = Except.error "Authorization code already used" := by
  induction calls generalizing st with
  | nil =>
    intro rs1 res rs2 hsplit
    simp [runExchanges] at hsplit
  | cons a rest ih =>
    intro rs1 res rs2 hsplit hok res2 hmem
    rw [runExchanges] at hsplit
    cases rs1 with
    | nil =>
      simp only [List.nil_append, List.cons.injEq] at hsplit
      obtain ⟨hres, hrs2⟩ := hsplit
      obtain ⟨d, hd, hu⟩ := exchange_ok_used_after st a.now a.new_access
        a.new_refresh code a.client_id a.client_secret a.redirect_uri
        a.code_verifier (hres ▸ hok)
      rw [runExchanges_used _ code rest d hd hu] at hrs2
      rw [← hrs2] at hmem
      obtain ⟨x, _, hfx⟩ := List.mem_map.mp hmem
      exact hfx.symm
    | cons r1 rs1' =>
      simp only [List.cons_append, List.cons.injEq] at hsplit
      exact ih _ rs1' res rs2 hsplit.2 hok res2 hmem

/-- A replay sequence never deletes the code entry. -/
theorem runExchanges_keeps_code (st : OAuthState) (code : String)
    (calls : List ExchangeArgs)
    (h : (st.auth_codes.get code).isSome = true) :
    ((runExchanges st code calls).2.auth_codes.get code).isSome = true := by
  induction calls generalizing st with
  | nil => simpa [runExchanges] using h
  | cons a rest ih =>
    rw [runExchanges]
    exact ih _ (exchange_keeps_code st a.now a.new_access a.new_refresh code
      a.client_id a.client_secret a.redirect_uri a.code_verifier h)

/-! ### Claim theorems -/

/-- C9: whenever `exchange_code_for_token` or `refresh_access_token` returns
a failure, all three stores (`auth_codes`, `access_tokens`,
`refresh_tokens`) are exactly as they were before the call: the whole
handler state is unchanged. -/
theorem claim_C9_error_atomicity (st : OAuthState) (now : Nat)
    (a r code cid : String) (cs ru cv : Option String)
    (st2 : OAuthState) (now2 : Nat) (a2 rt cid2 : String)
    (cs2 : Option String) (e e2 : String) :
    ((exchange_code_for_token st now a r code cid cs ru cv).1 =
        Except.error e →
      (exchange_code_for_token st now a r code cid cs ru cv).2 = st)
    ∧ ((refresh_access_token st2 now2 a2 rt cid2 cs2).1 = Except.error e2 →
      (refresh_access_token st2 now2 a2 rt cid2 cs2).2 = st2) :=
  ⟨exchange_error_frame st now a r code cid cs ru cv e,
   refresh_error_frame st2 now2 a2 rt cid2 cs2 e2⟩

/-- Witness for C9: a failing exchange (unknown code) and a failing refresh
(unknown token) on the initial state leave it unchanged. -/
theorem claim_C9_witness :
    (exchange_code_for_token OAuthState.init 0 "a" "r" "c" "demo" none none
        none).2 = OAuthState.init
    ∧ (refresh_access_token OAuthState.init 0 "a" "rt" "demo" none).2 =
        OAuthState.init :=
  ⟨(claim_C9_error_atomicity OAuthState.init 0 "a" "r" "c" "demo" none none
      none OAuthState.init 0 "a" "rt" "demo" none
      "Invalid authorization code" "Invalid refresh token").1 rfl,
   (claim_C9_error_atomicity OAuthState.init 0 "a" "r" "c" "demo" none none
      none OAuthState.init 0 "a" "rt" "demo" none
      "Invalid authorization code" "Invalid refresh token").2 rfl⟩

/-- C5: refreshing a stored, non-expired refresh token with the matching
client id succeeds, returning a newly minted access token carrying a full
fresh access-token TTL, the same refresh-token value (no rotation), and the
exchange response shape (`token_type` "Bearer", `expires_in`, `scope`);
with a different client id it fails with the `InvalidGrant`-mapped error
"Client ID mismatch". -/
theorem claim_C5_refresh_flow (st : OAuthState) (now : Nat)
    (a rt cid : String) (cs : Option String) (d : TokenData)
    (hget : st.refresh_tokens.get rt = some d)
    (hexp : ¬ d.expires_at < now) :
    (d.client_id = cid →
      (refresh_access_token st now a rt cid cs).1 =
        Except.ok
          { access_token := a
            token_type := "Bearer"
            expires_in := st.access_token_ttl
            refresh_token := rt
            scope := d.scope }
      ∧ (refresh_access_token st now a rt cid cs).2.access_tokens.get a =
          some
            { client_id := cid
              scope := d.scope
              user_id := d.user_id
              created_at := now
              expires_at := now + st.access_token_ttl })
    ∧ (d.client_id ≠ cid →
      (refresh_access_token st now a rt cid cs).1 =
        Except.error "Client ID mismatch") := by
  constructor
  · intro hcid
    rw [refresh_ok_shape st now a rt cid cs d hget hexp hcid]
    exact ⟨rfl, Store.get_set_self _ _ _⟩
  · intro hne
    unfold refresh_access_token
    simp [hget, hexp, hne]

/-- Witness for C5: refreshing the example refresh token at time 100 with
the matching client "demo" yields the expected Bearer response echoing the
same refresh token. -/
theorem claim_C5_witness :
    (refresh_access_token refreshExampleState 100 "newat" "rt" "demo"
        none).1 =
      Except.ok
        { access_token := "newat"
          token_type := "Bearer"
          expires_in := 3600
          refresh_token := "rt"
          scope := "all-apis" } :=
  ((claim_C5_refresh_flow refreshExampleState 100 "newat" "rt" "demo" none
      { client_id := "demo"
        scope := "all-apis"
        user_id := "authenticated_user"
        created_at := 0
        expires_at := 604800 } (by decide) (by decide)).1 rfl).1

/-- C10: a successful `refresh_access_token` leaves the refresh-token store
(and hence the refreshed record, its `expires_at`, `client_id`, `scope` and
`user_id`) and the auth-code store untouched; the only mutation is the
insertion of the single new access-token entry (all other access-token
keys are unchanged). -/
theorem claim_C10_refresh_frame (st : OAuthState) (now : Nat)
    (a rt cid : String) (cs : Option String)
    (hfresh : st.access_tokens.get a = none)
    (hok : exIsOk (refresh_access_token st now a rt cid cs).1 = true) :
    (refresh_access_token st now a rt cid cs).2.refresh_tokens =
        st.refresh_tokens
    ∧ (refresh_access_token st now a rt cid cs).2.auth_codes = st.auth_codes
    ∧ (∀ k, k ≠ a →
        (refresh_access_token st now a rt cid cs).2.access_tokens.get k =
          st.access_tokens.get k)
    ∧ ((refresh_access_token st now a rt cid cs).2.access_tokens.get a
        ≠ st.access_tokens.get a) := by
  obtain ⟨d, hget, hexp, hcid⟩ := refresh_ok_inv st now a rt cid cs hok
  rw [refresh_ok_shape st now a rt cid cs d hget hexp hcid]
  refine ⟨rfl, rfl, ?_, ?_⟩
  · intro k hk
    exact Store.get_set_ne _ _ _ _ hk
  · simp [Store.get_set_self, hfresh]

/-- Witness for C10: the successful refresh of the example refresh token
keeps the refresh-token store unchanged. -/
theorem claim_C10_witness :
    (refresh_access_token refreshExampleState 100 "newat" "rt" "demo"
        none).2.refresh_tokens = refreshExampleState.refresh_tokens :=
  (claim_C10_refresh_frame refreshExampleState 100 "newat" "rt" "demo" none
    rfl (by decide)).1

/-- C1: on any sequence of `exchange_code_for_token` calls against the same
code, at most one succeeds; every call after a success fails with the
reuse-specific error "Authorization code already used"; a success flips the
stored `used` flag from `false` to `true` in place; and exchange never
deletes the code entry. -/
theorem claim_C1_code_single_use (st : OAuthState) (code : String)
    (calls : List ExchangeArgs) :
    countOk (runExchanges st code calls).1 ≤ 1
    ∧ (∀ rs1 res rs2, (runExchanges st code calls).1 = rs1 ++ res :: rs2 →
        exIsOk res = true →
        ∀ res2 ∈ rs2,
          res2 = Except.error "Authorization code already used")
    ∧ ((st.auth_codes.get code).isSome = true →
        ((runExchanges st code calls).2.auth_codes.get code).isSome = true)
    ∧ (∀ (st' : OAuthState) (a : ExchangeArgs),
        exIsOk (exchange_code_for_token st' a.now a.new_access a.new_refresh
          code a.client_id a.client_secret a.redirect_uri
          a.code_verifier).1 = true →
        ∃ d, st'.auth_codes.get code = some d ∧ d.used = false ∧
          (exchange_code_for_token st' a.now a.new_access a.new_refresh code
            a.client_id a.client_secret a.redirect_uri
            a.code_verifier).2.auth_codes.get code =
            some { d with used := true }) :=
  ⟨runExchanges_countOk st code calls,
   runExchanges_after_ok st code calls,
   runExchanges_keeps_code st code calls,
   fun st' a h => exchange_ok_flag_flip st' a.now a.new_access a.new_refresh
     code a.client_id a.client_secret a.redirect_uri a.code_verifier h⟩

/-- Handler state holding one freshly issued authorization code, used by
concrete instantiations. -/
def issuedState : OAuthState :=
  (handle_authorization_callback OAuthState.init 0 "c1" "demo"
    "http://localhost/cb" none).2

/-- Two identical replay attempts on the issued code. -/
def replayCalls : List ExchangeArgs :=
  [{ now := 0
     new_access := "at"
     new_refresh := "rt"
     client_id := "demo"
     client_secret := none
     redirect_uri := some "http://localhost/cb"
     code_verifier := none },
   { now := 0
     new_access := "at2"
     new_refresh := "rt2"
     client_id := "demo"
     client_secret := none
     redirect_uri := some "http://localhost/cb"
     code_verifier := none }]

/-- Witness for C1: replaying a fresh code twice succeeds at most once, and
the code entry survives. -/
theorem claim_C1_witness :
    countOk (runExchanges issuedState "c1" replayCalls).1 ≤ 1
    ∧ ((runExchanges issuedState "c1" replayCalls).2.auth_codes.get
        "c1").isSome = true :=
  ⟨(claim_C1_code_single_use issuedState "c1" replayCalls).1,
   (claim_C1_code_single_use issuedState "c1" replayCalls).2.2.1
     (by decide)⟩

/-- C3: issuing a code and immediately exchanging it with matching
`client_id` and `redirect_uri` succeeds with a response carrying the access
token, `token_type` "Bearer", `expires_in` equal to the access-token TTL
(3600 under the default 60-minute TTL, see the witness), the refresh token
and the scope; the returned access token validates as valid at every time
before the TTL elapses and as invalid after it has elapsed. -/
theorem claim_C3_issue_exchange_validate (st : OAuthState) (t0 : Nat)
    (code cid ruri atok rtok : String) (cs cv : Option String) :
    (exchange_code_for_token
        (handle_authorization_callback st t0 code cid ruri none).2 t0 atok
        rtok code cid cs (some ruri) cv).1 =
      Except.ok
        { access_token := atok
          token_type := "Bearer"
          expires_in := st.access_token_ttl
          refresh_token := rtok
          scope := "all-apis" }
    ∧ (∀ t, t < t0 + st.access_token_ttl →
        (validate_token
          (exchange_code_for_token
            (handle_authorization_callback st t0 code cid ruri none).2 t0
            atok rtok code cid cs (some ruri) cv).2 t atok).1 = true)
    ∧ (∀ t, t0 + st.access_token_ttl < t →
        (validate_token
          (exchange_code_for_token
            (handle_authorization_callback st t0 code cid ruri none).2 t0
            atok rtok code cid cs (some ruri) cv).2 t atok).1 = false) := by
  have hget : (handle_authorization_callback st t0 code cid ruri
      none).2.auth_codes.get code =
      some { client_id := cid
             redirect_uri := ruri
             scope := "all-apis"
             created_at := t0
             expires_at := t0 + 600
             used := false } := Store.get_set_self _ _ _
  have hshape := exchange_ok_shape _ t0 atok rtok code cid cs (some ruri) cv
    _ hget rfl (by show ¬ t0 + 600 < t0; omega) rfl
    (by simp [redirectMismatch])
  rw [hshape]
  refine ⟨rfl, ?_, ?_⟩
  · intro t ht
    have hv := Store.get_set_self
      (handle_authorization_callback st t0 code cid ruri
        none).2.access_tokens atok
      { client_id := cid
        scope := "all-apis"
        user_id := "authenticated_user"
        created_at := t0
        expires_at := t0 +
          (handle_authorization_callback st t0 code cid ruri
            none).2.access_token_ttl }
    have hne : ¬ (t0 + st.access_token_ttl < t) := by omega
    unfold validate_token
    simp only [hv]
    simp [handle_authorization_callback, hne]
  · intro t ht
    have hv := Store.get_set_self
      (handle_authorization_callback st t0 code cid ruri
        none).2.access_tokens atok
      { client_id := cid
        scope := "all-apis"
        user_id := "authenticated_user"
        created_at := t0
        expires_at := t0 +
          (handle_authorization_callback st t0 code cid ruri
            none).2.access_token_ttl }
    unfold validate_token
    simp only [hv]
    simp [handle_authorization_callback, ht]

/-- Witness for C3: under the default state (60-minute TTL), the scenario
yields `expires_in = 3600` and the token is valid at 3599 but not 3601. -/
theorem claim_C3_witness :
    (exchange_code_for_token
        (handle_authorization_callback OAuthState.init 0 "c1" "demo"
          "http://localhost/cb" none).2 0 "at" "rt" "c1" "demo" none
        (some "http://localhost/cb") none).1 =
      Except.ok
        { access_token := "at"
          token_type := "Bearer"
          expires_in := 3600
          refresh_token := "rt"
          scope := "all-apis" }
    ∧ (validate_token
        (exchange_code_for_token
          (handle_authorization_callback OAuthState.init 0 "c1" "demo"
            "http://localhost/cb" none).2 0 "at" "rt" "c1" "demo" none
          (some "http://localhost/cb") none).2 3599 "at").1 = true
    ∧ (validate_token
        (exchange_code_for_token
          (handle_authorization_callback OAuthState.init 0 "c1" "demo"
            "http://localhost/cb" none).2 0 "at" "rt" "c1" "demo" none
          (some "http://localhost/cb") none).2 3601 "at").1 = false :=
  ⟨(claim_C3_issue_exchange_validate OAuthState.init 0 "c1" "demo"
      "http://localhost/cb" "at" "rt" none none).1,
   (claim_C3_issue_exchange_validate OAuthState.init 0 "c1" "demo"
      "http://localhost/cb" "at" "rt" none none).2.1 3599 (by decide),
   (claim_C3_issue_exchange_validate OAuthState.init 0 "c1" "demo"
      "http://localhost/cb" "at" "rt" none none).2.2 3601 (by decide)⟩

/-- Handler state with one stored code and one stored access token whose
`expires_at` is 100, for probing the expiry boundary. -/
def boundaryState : OAuthState :=
  { OAuthState.init with
     auth_codes :=
       [("c", { client_id := "demo"
                redirect_uri := "http://localhost/cb"
                scope := "all-apis"
                created_at := 0
                expires_at := 100
                used := false })]
     access_tokens :=
       [("t", { client_id := "demo"
                scope := "all-apis"
                user_id := "authenticated_user"
                created_at := 0
                expires_at := 100 })] }

/-- Counterexample to C4 as stated: at `now` exactly equal to `expires_at`
(both 100), the access token still validates as valid and the code
exchange succeeds rather than failing with "Authorization code expired" —
equality is not treated as expired. -/
theorem claim_C4_counterexample :
    (validate_token boundaryState 100 "t").1 = true
    ∧ exIsOk (exchange_code_for_token boundaryState 100 "at" "rt" "c"
        "demo" none (some "http://localhost/cb") none).1 = true
    ∧ (exchange_code_for_token boundaryState 100 "at" "rt" "c" "demo" none
        (some "http://localhost/cb") none).1 ≠
        Except.error "Authorization code expired" := by
  refine ⟨rfl, rfl, ?_⟩
  have hok : (exchange_code_for_token boundaryState 100 "at" "rt" "c"
      "demo" none (some "http://localhost/cb") none).1 =
      Except.ok
        { access_token := "at"
          token_type := "Bearer"
          expires_in := 3600
          refresh_token := "rt"
          scope := "all-apis" } := rfl
  simp [hok]

/-- C4 amended: the expiry comparison is strict `now > expires_at`, so a
code or token with `expires_at == now` is still accepted; exchange rejects
with "Authorization code expired" exactly when `now` strictly exceeds the
stored code's `expires_at` (given the code exists and is unused), and
`validate_token` reports valid exactly when `now` does not strictly exceed
the token's `expires_at`. -/
theorem claim_C4_expiry_boundary (st : OAuthState) (now : Nat)
    (a r code cid : String) (cs ru cv : Option String) (d : AuthCodeData)
    (hc : st.auth_codes.get code = some d) (hu : d.used = false)
    (st2 : OAuthState) (now2 : Nat) (tok : String) (td : TokenData)
    (ht : st2.access_tokens.get tok = some td) :
    ((exchange_code_for_token st now a r code cid cs ru cv).1 =
        Except.error "Authorization code expired" ↔ d.expires_at < now)
    ∧ ((validate_token st2 now2 tok).1 = true ↔ ¬ td.expires_at < now2) := by
  constructor
  · unfold exchange_code_for_token
    simp only [hc, hu]
    by_cases hexp : d.expires_at < now
    · simp [hexp]
    · simp only [hexp, if_false, Bool.false_eq_true]
      split_ifs <;> simp_all
  · unfold validate_token
    simp only [ht]
    by_cases hexp : td.expires_at < now2 <;> simp [hexp]

/-- Witness for C4 amended: at the boundary `now = expires_at = 100` the
token validates and the exchange does not report expiry. -/
theorem claim_C4_witness :
    (validate_token boundaryState 100 "t").1 = true
    ∧ ¬ ((exchange_code_for_token boundaryState 100 "at" "rt" "c" "demo"
        none (some "http://localhost/cb") none).1 =
        Except.error "Authorization code expired") :=
  ⟨(claim_C4_expiry_boundary boundaryState 100 "at" "rt" "c" "demo" none
      (some "http://localhost/cb") none
      { client_id := "demo"
        redirect_uri := "http://localhost/cb"
        scope := "all-apis"
        created_at := 0
        expires_at := 100
        used := false } rfl rfl boundaryState 100 "t"
      { client_id := "demo"
        scope := "all-apis"
        user_id := "authenticated_user"
        created_at := 0
        expires_at := 100 } rfl).2.mpr (by decide),
   fun h =>
     absurd ((claim_C4_expiry_boundary boundaryState 100 "at" "rt" "c"
        "demo" none (some "http://localhost/cb") none
        { client_id := "demo"
          redirect_uri := "http://localhost/cb"
          scope := "all-apis"
          created_at := 0
          expires_at := 100
          used := false } rfl rfl boundaryState 100 "t"
        { client_id := "demo"
          scope := "all-apis"
          user_id := "authenticated_user"
          created_at := 0
          expires_at := 100 } rfl).1.mp h) (by decide)⟩

/-- Counterexample to C6 as stated: an `AUTHORIZATION` header (a casing
other than the two literals the code probes) is not found at all and yields
the missing-credentials error rather than proceeding to the Bearer check;
and a present-but-empty `Authorization` value also yields the
missing-credentials error rather than the malformed-credentials one. -/
theorem claim_C6_counterexample :
    authenticate_request OAuthState.init [] 0
        [("AUTHORIZATION", "Bearer tok")] =
      (false, none, some "Missing Authorization header")
    ∧ authenticate_request OAuthState.init [] 0 [("Authorization", "")] =
      (false, none, some "Missing Authorization header") := by
  constructor <;> rfl

/-- C6 amended: `authenticate_request` extracts the Authorization header by
trying exactly the two keys `authorization` and `Authorization` (in that
order, the first truthy value winning); when neither yields a truthy
(non-empty) value — in particular for any other letter-casing of the key —
it fails with the missing-credentials error; when a truthy value is found
it fails with the malformed-credentials error unless the value starts with
the case-sensitive literal "Bearer "; and the outcome depends on the header
map only through those two lookups. -/
theorem claim_C6_header_extraction (ost : OAuthState) (pats : Store PatData)
    (now : Nat) (headers : Store String) :
    (truthy (pyOrStr (headers.get "authorization")
        (headers.get "Authorization")) = false →
      authenticate_request ost pats now headers =
        (false, none, some "Missing Authorization header"))
    ∧ (∀ v, pyOrStr (headers.get "authorization")
          (headers.get "Authorization") = some v → v ≠ "" →
        pyStartswith v "Bearer " = false →
        authenticate_request ost pats now headers =
          (false, none,
           some "Invalid Authorization header format. Expected \x27Bearer <token>\x27"))
    ∧ (∀ headers2 : Store String,
        pyOrStr (headers.get "authorization") (headers.get "Authorization") =
          pyOrStr (headers2.get "authorization")
            (headers2.get "Authorization") →
        authenticate_request ost pats now headers =
          authenticate_request ost pats now headers2) := by
  refine ⟨?_, ?_, ?_⟩
  · intro h
    unfold authenticate_request
    simp [h]
  · intro v hv hne hbs
    unfold authenticate_request
    rw [hv]
    simp [truthy, hne, hbs]
  · intro headers2 heq
    unfold authenticate_request
    rw [heq]

/-- Witness for C6 amended: a request with no recognized Authorization key
fails with the missing-credentials error, and a `Authorization: Basic xyz`
header fails with the malformed-credentials error. -/
theorem claim_C6_witness :
    authenticate_request OAuthState.init [] 0 [("X-Other", "v")] =
      (false, none, some "Missing Authorization header")
    ∧ authenticate_request OAuthState.init [] 0
        [("Authorization", "Basic xyz")] =
      (false, none,
       some "Invalid Authorization header format. Expected \x27Bearer <token>\x27") :=
  ⟨(claim_C6_header_extraction OAuthState.init [] 0
      [("X-Other", "v")]).1 (by decide),
   (claim_C6_header_extraction OAuthState.init [] 0
      [("Authorization", "Basic xyz")]).2.1 "Basic xyz" rfl (by decide)
      (by decide)⟩

/-- C2 evidence (code bug): the `code_verifier` argument of
`exchange_code_for_token` is accepted but never read, so the exchange
outcome is identical for any two verifier arguments; no exchange call can
ever fail with "PKCE verification failed"; and concretely, a code issued
through the authorize endpoint with a `code_challenge` is exchanged
successfully with no verifier at all. -/
theorem claim_C2_pkce_not_verified :
    (∀ (st : OAuthState) (now : Nat) (a r code cid : String)
        (cs ru v1 v2 : Option String),
      exchange_code_for_token st now a r code cid cs ru v1 =
        exchange_code_for_token st now a r code cid cs ru v2)
    ∧ (∀ (st : OAuthState) (now : Nat) (a r code cid : String)
        (cs ru cv : Option String),
        (exchange_code_for_token st now a r code cid cs ru cv).1 ≠
          Except.error "PKCE verification failed")
    ∧ exIsOk (exchange_code_for_token
        (handle_oauth_authorize none OAuthState.init 0 "codeX"
          [("client_id", "demo"), ("redirect_uri", "http://localhost/cb"),
           ("code_challenge", "SOMECHALLENGE"),
           ("code_challenge_method", "S256")] []).2
        0 "at" "rt" "codeX" "demo" none (some "http://localhost/cb")
        none).1 = true := by
  refine ⟨fun st now a r code cid cs ru v1 v2 => rfl, ?_, ?_⟩
  · intro st now a r code cid cs ru cv
    unfold exchange_code_for_token
    cases hget : st.auth_codes.get code
    · simp
    · simp only []
      split_ifs <;> simp
  · decide

/-- Witness for C2: two exchanges differing only in their verifier argument
produce the same outcome. -/
theorem claim_C2_witness :
    exchange_code_for_token OAuthState.init 0 "a" "r" "c" "demo" none none
        (some "v1") =
      exchange_code_for_token OAuthState.init 0 "a" "r" "c" "demo" none none
        (some "v2") :=
  claim_C2_pkce_not_verified.1 OAuthState.init 0 "a" "r" "c" "demo" none
    none (some "v1") (some "v2")

/-- C8: the `scope` query parameter of an authorize request is ignored:
every code created via `handle_oauth_authorize` is stored with scope
exactly "all-apis" regardless of the query; and every exchange of a code
whose record carries scope "all-apis", and every refresh of a refresh
token carrying scope "all-apis", produces a response and stored
access/refresh token records with scope "all-apis". -/
theorem claim_C8_scope_pinned :
    (∀ (env : Option String) (st : OAuthState) (now : Nat) (code : String)
        (q hdrs : Store String), truthy (q.get "client_id") = true →
      ∃ rec : AuthCodeData,
        (handle_oauth_authorize env st now code q hdrs).2.auth_codes.get
            code = some rec
        ∧ rec.scope = "all-apis")
    ∧ (∀ (st : OAuthState) (now : Nat) (a r code cid : String)
        (cs ru cv : Option String) (d : AuthCodeData)
        (resp : TokenResponse),
        st.auth_codes.get code = some d → d.scope = "all-apis" →
        (exchange_code_for_token st now a r code cid cs ru cv).1 =
          Except.ok resp →
        resp.scope = "all-apis"
        ∧ (∃ td, (exchange_code_for_token st now a r code cid cs ru
              cv).2.access_tokens.get a = some td ∧ td.scope = "all-apis")
        ∧ (∃ td, (exchange_code_for_token st now a r code cid cs ru
              cv).2.refresh_tokens.get r = some td ∧ td.scope = "all-apis"))
    ∧ (∀ (st : OAuthState) (now : Nat) (a rt cid : String)
        (cs : Option String) (d : TokenData) (resp : TokenResponse),
        st.refresh_tokens.get rt = some d → d.scope = "all-apis" →
        (refresh_access_token st now a rt cid cs).1 = Except.ok resp →
        resp.scope = "all-apis"
        ∧ ∃ td, (refresh_access_token st now a rt cid
            cs).2.access_tokens.get a = some td ∧ td.scope = "all-apis") := by
  refine ⟨?_, ?_, ?_⟩
  · intro env st now code q hdrs h
    simp only [handle_oauth_authorize, h]
    simp [handle_authorization_callback, Store.get_set_self]
  · intro st now a r code cid cs ru cv d resp hget hscope hok
    obtain ⟨d0, hget0, hused, hexp, hcid, hru⟩ :=
      exchange_ok_inv st now a r code cid cs ru cv (by simp [hok, exIsOk])
    rw [hget] at hget0
    obtain rfl : d = d0 := by exact Option.some.inj hget0
    have hsh := exchange_ok_shape st now a r code cid cs ru cv d hget hused
      hexp hcid hru
    rw [hsh] at hok ⊢
    have hresp : resp =
        { access_token := a
          token_type := "Bearer"
          expires_in := st.access_token_ttl
          refresh_token := r
          scope := d.scope } := (Except.ok.inj hok).symm
    subst hresp
    exact ⟨hscope, ⟨_, Store.get_set_self _ _ _, hscope⟩,
      ⟨_, Store.get_set_self _ _ _, hscope⟩⟩
  · intro st now a rt cid cs d resp hget hscope hok
    obtain ⟨d0, hget0, hexp, hcid⟩ :=
      refresh_ok_inv st now a rt cid cs (by simp [hok, exIsOk])
    rw [hget] at hget0
    obtain rfl : d = d0 := by exact Option.some.inj hget0
    have hsh := refresh_ok_shape st now a rt cid cs d hget hexp hcid
    rw [hsh] at hok ⊢
    have hresp : resp =
        { access_token := a
          token_type := "Bearer"
          expires_in := st.access_token_ttl
          refresh_token := rt
          scope := d.scope } := (Except.ok.inj hok).symm
    subst hresp
    exact ⟨hscope, ⟨_, Store.get_set_self _ _ _, hscope⟩⟩

/-- Witness for C8: an authorize request asking for scope "something-else"
still stores its code with scope "all-apis". -/
theorem claim_C8_witness :
    ∃ rec : AuthCodeData,
      (handle_oauth_authorize none OAuthState.init 0 "codeY"
          [("client_id", "demo"),
           ("scope", "something-else")] []).2.auth_codes.get "codeY" =
        some rec
      ∧ rec.scope = "all-apis" :=
  claim_C8_scope_pinned.1 none OAuthState.init 0 "codeY"
    [("client_id", "demo"), ("scope", "something-else")] [] (by decide)

/-- Every sextet byte produced by the encoder lies in the URL-safe
alphabet. -/
theorem b64urlChar_urlsafe (n : Nat) : isUrlSafeByte (b64urlChar n) = true := by
  unfold b64urlChar isUrlSafeByte
  split_ifs <;>
    simp only [Bool.or_eq_true, Bool.and_eq_true, decide_eq_true_eq,
      beq_iff_eq] <;>
    first
    | omega
    | simp

/-- The encoder alphabet never produces the padding byte 61 (`=`). -/
theorem b64urlChar_ne61 (n : Nat) : (b64urlChar n == 61) = false := by
  have h := b64urlChar_urlsafe n
  simp only [beq_eq_false_iff_ne, ne_eq]
  intro he
  rw [he] at h
  exact absurd h (by decide)

/-- Right-stripping the padding byte distributes over an append whose left
part contains no padding byte. -/
theorem rstrip61_append (xs ys : List Nat)
    (h : ∀ x ∈ xs, (x == 61) = false) :
    rstrip61 (xs ++ ys) = xs ++ rstrip61 ys := by
  unfold rstrip61
  rw [List.reverse_append, List.dropWhile_append]
  by_cases he : (ys.reverse.dropWhile fun c => c == 61).isEmpty = true
  · rw [if_pos he]
    have hys : (ys.reverse.dropWhile fun c => c == 61) = [] :=
      List.isEmpty_iff.mp he
    have hxs : (xs.reverse.dropWhile fun c => c == 61) = xs.reverse := by
      cases hx : xs.reverse with
      | nil => simp
      | cons a t =>
        have ha : a ∈ xs := by
          rw [← List.mem_reverse, hx]
          exact List.mem_cons_self _ _
        rw [List.dropWhile_cons_of_neg (by simp [h a ha])]
    rw [hxs, hys, List.reverse_reverse, List.reverse_nil, List.append_nil]
  · rw [if_neg he, List.reverse_append, List.reverse_reverse]

/-- Every byte surviving the padding strip of an encoding is URL-safe. -/
theorem rstrip61_b64urlEncode_urlsafe :
    ∀ (bs : List Nat), ∀ c ∈ rstrip61 (b64urlEncode bs),
      isUrlSafeByte c = true
  | [] => by
    intro c hc
    simp [b64urlEncode, rstrip61] at hc
  | [a] => by
    intro c hc
    rw [show b64urlEncode [a] =
        [b64urlChar (a / 4), b64urlChar (a % 4 * 16)] ++ [61, 61] from rfl,
      rstrip61_append _ _ (by
        intro x hx
        simp only [List.mem_cons, List.not_mem_nil, or_false] at hx
        rcases hx with rfl | rfl <;> exact b64urlChar_ne61 _),
      show rstrip61 [61, 61] = ([] : List Nat) from rfl,
      List.append_nil] at hc
    simp only [List.mem_cons, List.not_mem_nil, or_false] at hc
    rcases hc with rfl | rfl <;> exact b64urlChar_urlsafe _
  | [a, b] => by
    intro c hc
    rw [show b64urlEncode [a, b] =
        [b64urlChar (a / 4), b64urlChar (a % 4 * 16 + b / 16),
         b64urlChar (b % 16 * 4)] ++ [61] from rfl,
      rstrip61_append _ _ (by
        intro x hx
        simp only [List.mem_cons, List.not_mem_nil, or_false] at hx
        rcases hx with rfl | rfl | rfl <;> exact b64urlChar_ne61 _),
      show rstrip61 [61] = ([] : List Nat) from rfl,
      List.append_nil] at hc
    simp only [List.mem_cons, List.not_mem_nil, or_false] at hc
    rcases hc with rfl | rfl | rfl <;> exact b64urlChar_urlsafe _
  | a :: b :: c' :: rest => by
    intro c hc
    rw [show b64urlEncode (a :: b :: c' :: rest) =
        [b64urlChar (a / 4), b64urlChar (a % 4 * 16 + b / 16),
         b64urlChar (b % 16 * 4 + c' / 64), b64urlChar (c' % 64)] ++
          b64urlEncode rest from rfl,
      rstrip61_append _ _ (by
        intro x hx
        simp only [List.mem_cons, List.not_mem_nil, or_false] at hx
        rcases hx with rfl | rfl | rfl | rfl <;> exact b64urlChar_ne61 _)]
      at hc
    rcases List.mem_append.mp hc with h4 | hrest
    · simp only [List.mem_cons, List.not_mem_nil, or_false] at h4
      rcases h4 with rfl | rfl | rfl | rfl <;> exact b64urlChar_urlsafe _
    · exact rstrip61_b64urlEncode_urlsafe rest c hrest

/-- C7: for any digest function and any 32-byte random input, the PKCE pair
satisfies: the challenge is the URL-safe base64 encoding, '=' padding
stripped, of the SHA-256 digest of the verifier's bytes (the verifier is
pure base64url alphabet, so its ASCII/UTF-8 bytes are the verifier
itself); the verifier is the padding-stripped URL-safe base64 encoding of
at least 32 bytes of entropy; and both strings consist solely of URL-safe
characters. -/
theorem claim_C7_pkce_pair (sha256 : List Nat → List Nat)
    (randomBytes : List Nat) (hlen : randomBytes.length = 32) :
    (generate_pkce_pair sha256 randomBytes).2 =
      rstrip61 (b64urlEncode
        (sha256 (generate_pkce_pair sha256 randomBytes).1))
    ∧ (∃ bs : List Nat, 32 ≤ bs.length ∧
        (generate_pkce_pair sha256 randomBytes).1 =
          rstrip61 (b64urlEncode bs))
    ∧ (∀ c ∈ (generate_pkce_pair sha256 randomBytes).1,
        isUrlSafeByte c = true)
    ∧ (∀ c ∈ (generate_pkce_pair sha256 randomBytes).2,
        isUrlSafeByte c = true) :=
  ⟨rfl,
   ⟨randomBytes, by omega, rfl⟩,
   rstrip61_b64urlEncode_urlsafe randomBytes,
   rstrip61_b64urlEncode_urlsafe
     (sha256 (rstrip61 (b64urlEncode randomBytes)))⟩

/-- Witness for C7: concrete instantiation with a constant digest function
and the 32 bytes 0..31. -/
theorem claim_C7_witness :
    (generate_pkce_pair (fun _ => [1, 2, 3]) (List.range 32)).2 =
      rstrip61 (b64urlEncode
        ((fun _ => [1, 2, 3])
          (generate_pkce_pair (fun _ => [1, 2, 3]) (List.range 32)).1)) :=
  (claim_C7_pkce_pair (fun _ => [1, 2, 3]) (List.range 32) (by decide)).1

end FastMcp
